import Mathlib

/-!
Shallow embedding of the marketplace hooks in
`src/packages/react-core/src/evm/hooks/async/marketplace.ts`.

Read hooks are modelled as a pure query function returning the query state
together with the list of provider read calls the fetcher issued; write hooks
are modelled as a pure mutation run returning the settled result together with
an event trace (provider calls followed by the scheduled cache invalidation).
External collaborators (the query/mutation engine, the cache-key module and the
required-param helper, none of which are under `src/`) are modelled from the
specification and carry a doc comment saying so.
-/

/-- Listing type tag of the SDK (`ListingType.Direct` / `ListingType.Auction`). -/
inductive ListingType where
  | direct
  | auction
deriving DecidableEq, Repr

/-- Marketplace contract handle. The Boolean fields model the truthiness of the
provider sub-capabilities that the write hooks test with `invariant` before
calling them (`contract.direct.createListing`, `contract.auction.createListing`,
`contract.auction.makeBid`, `contract.direct.buyoutListing`,
`contract.auction.buyoutListing`). -/
structure Marketplace where
  address : String
  directCreateListingSupported : Bool
  auctionCreateListingSupported : Bool
  auctionMakeBidSupported : Bool
  directBuyoutListingSupported : Bool
  auctionBuyoutListingSupported : Bool
deriving DecidableEq, Repr

/-- A marketplace handle with every sub-capability present. -/
def mkMarketplace (addr : String) : Marketplace :=
  ⟨addr, true, true, true, true, true⟩

/-- Error taxonomy of the layer, following the checks in the source: the wallet
`invariant` (unauthenticated), `requiredParamInvariant` on the handle
(missing resource), `requiredParamInvariant` on a parameter (missing
parameter), the capability `invariant` (unsupported operation), a rejection
coming from the provider (provider error), and the JavaScript `TypeError`
raised when an absent capability is nevertheless called. -/
inductive MErr where
  | missingResource (msg : String)
  | missingParameter (msg : String)
  | unauthenticated (msg : String)
  | unsupportedOperation (msg : String)
  | providerError (msg : String)
  | typeError (msg : String)
deriving DecidableEq, Repr

/-- JavaScript `String.prototype.includes`: substring containment. -/
def jsIncludes (s pat : String) : Bool :=
  pat.isEmpty || decide (1 < (s.splitOn pat).length)

/-- Marketplace read filter (`MarketplaceFilter` in the SDK), opaque here. -/
structure MarketplaceFilter where
  start : Option Int
  count : Option Int
  seller : Option String
  tokenContract : Option String
  tokenId : Option Int
deriving DecidableEq, Repr

/-- Provider read calls issued by the read hooks, with their arguments. -/
inductive ReadCall where
  | getListing (addr : String) (listingId : Int)
  | getAllListings (addr : String) (filter : Option MarketplaceFilter)
  | getTotalCount (addr : String)
  | getActiveListings (addr : String) (filter : Option MarketplaceFilter)
  | auctionGetWinningBid (addr : String) (listingId : Int)
  | auctionGetWinner (addr : String) (listingId : Int)
  | getBidBufferBps (addr : String)
  | auctionGetMinimumNextBid (addr : String) (listingId : Int)
deriving DecidableEq, Repr

/-- Tri-state result of a query, per the spec data model: pending/disabled,
resolved with data, or failed with an error. -/
inductive QueryState (α : Type) where
  | pending
  | success (data : α)
  | failure (e : MErr)
deriving DecidableEq, Repr

/-- Modelled from the spec: the external caching engine's
`runQuery(key, fetcher, options.enabled)` (`useQueryWithNetwork` delegating to
the query library, not under `src/`). When `enabled` is false the fetcher is
never invoked and the result stays pending; otherwise the fetcher runs and its
outcome becomes the query state. The second component is the list of provider
read calls the fetcher issued. -/
def runQueryT {α : Type} (enabled : Bool)
    (fetcher : Unit → Except MErr α × List ReadCall) :
    QueryState α × List ReadCall :=
  if enabled then
    match fetcher () with
    | (Except.ok a, calls) => (QueryState.success a, calls)
    | (Except.error e, calls) => (QueryState.failure e, calls)
  else (QueryState.pending, [])

/-- Lift a raw provider rejection into the error taxonomy. -/
def ofProvider {α : Type} : Except String α → Except MErr α
  | Except.ok a => Except.ok a
  | Except.error e => Except.error (MErr.providerError e)

/-- `useListing` enabled flag: `enabled: !!contract` (marketplace.ts line 63). -/
def useListing.enabled (contract : Option Marketplace) (_listingId : Option Int) : Bool :=
  contract.isSome

/-- `useListing` (marketplace.ts lines 50-67): fetcher asserts the contract and
the listing id via `requiredParamInvariant`, then calls
`contract.getListing(listingId)`. `requiredParamInvariant` is modelled from the
spec (required-param.ts is not under `src/`): an absent required parameter
fails with the given message. -/
def useListing.query (contract : Option Marketplace) (listingId : Option Int)
    (getListing : String → Int → Except String Nat) :
    QueryState Nat × List ReadCall :=
  runQueryT (useListing.enabled contract listingId) fun _ =>
    match contract with
    | none => (Except.error (MErr.missingResource ("No Contract instance provided")), [])
    | some c =>
      match listingId with
      | none => (Except.error (MErr.missingParameter ("No listing id provided")), [])
      | some id => (ofProvider (getListing c.address id), [ReadCall.getListing c.address id])

/-- `useListings` enabled flag: `enabled: !!contract` (line 94). -/
def useListings.enabled (contract : Option Marketplace) : Bool :=
  contract.isSome

/-- `useListings` (lines 82-98): asserts the contract, then calls
`contract.getAllListings(filter)`. -/
def useListings.query (contract : Option Marketplace) (filter : Option MarketplaceFilter)
    (getAllListings : String → Option MarketplaceFilter → Except String Nat) :
    QueryState Nat × List ReadCall :=
  runQueryT (useListings.enabled contract) fun _ =>
    match contract with
    | none => (Except.error (MErr.missingResource ("No Contract instance provided")), [])
    | some c =>
      (ofProvider (getAllListings c.address filter), [ReadCall.getAllListings c.address filter])

/-- `useListingsCount` enabled flag: `enabled: !!contract` (line 121). -/
def useListingsCount.enabled (contract : Option Marketplace) : Bool :=
  contract.isSome

/-- `useListingsCount` (lines 112-124): asserts the contract, then calls
`contract.getTotalCount()`. -/
def useListingsCount.query (contract : Option Marketplace)
    (getTotalCount : String → Except String Nat) :
    QueryState Nat × List ReadCall :=
  runQueryT (useListingsCount.enabled contract) fun _ =>
    match contract with
    | none => (Except.error (MErr.missingResource ("No Contract instance provided")), [])
    | some c => (ofProvider (getTotalCount c.address), [ReadCall.getTotalCount c.address])

/-- `useActiveListings` enabled flag: `enabled: !!contract` (line 152). -/
def useActiveListings.enabled (contract : Option Marketplace) : Bool :=
  contract.isSome

/-- `useActiveListings` (lines 139-156): asserts the contract, then calls
`contract.getActiveListings(filter)`. -/
def useActiveListings.query (contract : Option Marketplace)
    (filter : Option MarketplaceFilter)
    (getActiveListings : String → Option MarketplaceFilter → Except String Nat) :
    QueryState Nat × List ReadCall :=
  runQueryT (useActiveListings.enabled contract) fun _ =>
    match contract with
    | none => (Except.error (MErr.missingResource ("No Contract instance provided")), [])
    | some c =>
      (ofProvider (getActiveListings c.address filter),
        [ReadCall.getActiveListings c.address filter])

/-- `useWinningBid` enabled flag:
`enabled: !!contract && listingId !== undefined` (line 187). -/
def useWinningBid.enabled (contract : Option Marketplace) (listingId : Option Int) : Bool :=
  contract.isSome && listingId.isSome

/-- `useWinningBid` (lines 171-190): asserts the contract and the listing id,
then calls `contract.auction.getWinningBid(listingId)`. -/
def useWinningBid.query (contract : Option Marketplace) (listingId : Option Int)
    (getWinningBid : String → Int → Except String Nat) :
    QueryState Nat × List ReadCall :=
  runQueryT (useWinningBid.enabled contract listingId) fun _ =>
    match contract with
    | none => (Except.error (MErr.missingResource ("No Contract instance provided")), [])
    | some c =>
      match listingId with
      | none => (Except.error (MErr.missingParameter ("No listing id provided")), [])
      | some id =>
        (ofProvider (getWinningBid c.address id), [ReadCall.auctionGetWinningBid c.address id])

/-- `useAuctionWinner` enabled flag:
`enabled: !!contract && listingId !== undefined` (line 229). -/
def useAuctionWinner.enabled (contract : Option Marketplace) (listingId : Option Int) : Bool :=
  contract.isSome && listingId.isSome

/-- `useAuctionWinner` (lines 205-232): asserts the contract and the listing
id, awaits `contract.auction.getWinner(listingId)` inside a try/catch; a
rejection whose message contains "Could not find auction" is swallowed and the
query resolves with the still-undefined `winner`, any other rejection is
re-thrown. -/
def useAuctionWinner.query (contract : Option Marketplace) (listingId : Option Int)
    (getWinner : Int → Except String String) :
    QueryState (Option String) × List ReadCall :=
  runQueryT (useAuctionWinner.enabled contract listingId) fun _ =>
    match contract with
    | none => (Except.error (MErr.missingResource ("No Contract instance provided")), [])
    | some c =>
      match listingId with
      | none => (Except.error (MErr.missingParameter ("No listing id provided")), [])
      | some id =>
        match getWinner id with
        | Except.ok w => (Except.ok (some w), [ReadCall.auctionGetWinner c.address id])
        | Except.error err =>
          if jsIncludes err ("Could not find auction") then
            (Except.ok none, [ReadCall.auctionGetWinner c.address id])
          else
            (Except.error (MErr.providerError err), [ReadCall.auctionGetWinner c.address id])

/-- `useBidBuffer` enabled flag: `enabled: !!contract` (line 256). -/
def useBidBuffer.enabled (contract : Option Marketplace) : Bool :=
  contract.isSome

/-- `useBidBuffer` (lines 247-259): asserts the contract, then calls
`contract.getBidBufferBps()`. -/
def useBidBuffer.query (contract : Option Marketplace)
    (getBidBufferBps : String → Except String Nat) :
    QueryState Nat × List ReadCall :=
  runQueryT (useBidBuffer.enabled contract) fun _ =>
    match contract with
    | none => (Except.error (MErr.missingResource ("No Contract instance provided")), [])
    | some c => (ofProvider (getBidBufferBps c.address), [ReadCall.getBidBufferBps c.address])

/-- `useMinimumNextBid` enabled flag:
`enabled: !!contract && listingId !== undefined` (line 290). -/
def useMinimumNextBid.enabled (contract : Option Marketplace) (listingId : Option Int) : Bool :=
  contract.isSome && listingId.isSome

/-- `useMinimumNextBid` (lines 274-293): asserts the contract and the listing
id, then awaits `contract.auction.getMinimumNextBid(listingId)`. -/
def useMinimumNextBid.query (contract : Option Marketplace) (listingId : Option Int)
    (getMinimumNextBid : String → Int → Except String Nat) :
    QueryState Nat × List ReadCall :=
  runQueryT (useMinimumNextBid.enabled contract listingId) fun _ =>
    match contract with
    | none => (Except.error (MErr.missingResource ("No Contract instance provided")), [])
    | some c =>
      match listingId with
      | none => (Except.error (MErr.missingParameter ("No listing id provided")), [])
      | some id =>
        (ofProvider (getMinimumNextBid c.address id),
          [ReadCall.auctionGetMinimumNextBid c.address id])

/-- New direct-listing payload (`NewDirectListing`), opaque token here. -/
abbrev NewDirectListing := Nat

/-- New auction-listing payload (`NewAuctionListing`), opaque token here. -/
abbrev NewAuctionListing := Nat

/-- `MakeBidParams`: `{ listingId, bid }`. -/
structure MakeBidParams where
  listingId : Int
  bid : Int
deriving DecidableEq, Repr

/-- `MakeOfferParams`: `{ listingId, pricePerToken, quantity }`. -/
structure MakeOfferParams where
  listingId : Int
  pricePerToken : Int
  quantity : Int
deriving DecidableEq, Repr

/-- `AcceptDirectOffer`: `{ listingId, addressOfOfferor }`. -/
structure AcceptDirectOffer where
  listingId : Int
  addressOfOfferor : String
deriving DecidableEq, Repr

/-- `ExecuteAuctionSale`: `{ listingId }`. -/
structure ExecuteAuctionSale where
  listingId : Int
deriving DecidableEq, Repr

/-- `Pick<AuctionListing | DirectListing, "type" | "id">`, the input of
`useCancelListing`. -/
structure CancelListingInput where
  type : ListingType
  id : Int
deriving DecidableEq, Repr

/-- `BuyNowParams`: a union discriminated on `type` — the direct variant
carries `id`, `buyAmount` and an optional `buyForWallet`, the auction variant
carries only `id`. -/
inductive BuyNowParams where
  | direct (id : Int) (buyAmount : Int) (buyForWallet : Option String)
  | auction (id : Int)
deriving DecidableEq, Repr

/-- Provider write calls issued by the write hooks, with their arguments. -/
inductive ProviderCall where
  | directCreateListing (data : NewDirectListing)
  | auctionCreateListing (data : NewAuctionListing)
  | auctionCancelListing (id : Int)
  | directCancelListing (id : Int)
  | auctionMakeBid (listingId : Int) (bid : Int)
  | makeOffer (listingId : Int) (pricePerToken : Int) (quantity : Int)
  | directAcceptOffer (listingId : Int) (addressOfOfferor : String)
  | auctionExecuteSale (listingId : Int)
  | directBuyoutListing (id : Int) (buyAmount : Int) (buyForWallet : Option String)
  | auctionBuyoutListing (id : Int)
deriving DecidableEq, Repr

/-- Events observable during one mutation run: provider calls, then the cache
invalidation scheduled at settlement. -/
inductive MutEvent where
  | providerCall (c : ProviderCall)
  | invalidate (addr : Option String) (chainId : Option Nat)
deriving DecidableEq, Repr

/-- The provider write calls contained in a mutation trace. -/
def providerCalls (trace : List MutEvent) : List ProviderCall :=
  trace.filterMap fun e =>
    match e with
    | MutEvent.providerCall c => some c
    | MutEvent.invalidate _ _ => none

/-- Outcome of a mutation fetcher: the settled result (a transaction token, or
`none` when the JavaScript expression resolved to `undefined`) and the provider
calls it made. -/
abbrev MutationRun := Except MErr (Option Nat) × List ProviderCall

/-- A write provider: maps a write call to a transaction token or a rejection. -/
abbrev WriteProvider := ProviderCall → Except String Nat

/-- Await a present provider capability: the call is issued and its outcome
becomes the fetcher result. -/
def callProvider (provider : WriteProvider) (c : ProviderCall) : MutationRun :=
  (match provider c with
   | Except.ok n => Except.ok (some n)
   | Except.error e => Except.error (MErr.providerError e), [c])

/-- Call a provider capability that may be absent: when `supported` is false
the JavaScript call `undefined(...)` raises a `TypeError` and no provider call
is made. -/
def callCapability (supported : Bool) (provider : WriteProvider) (c : ProviderCall)
    (capabilityName : String) : MutationRun :=
  if supported then callProvider provider c
  else (Except.error (MErr.typeError (capabilityName ++ (" is not a function"))), [])

/-- Modelled from the spec: `invalidateContractAndBalances` (cache-keys.ts, not
under `src/`) invalidates every cached read entry associated with the
contract's address and the active chain id. -/
def invalidateContractAndBalances (addr : Option String) (chainId : Option Nat) : MutEvent :=
  MutEvent.invalidate addr chainId

/-- Modelled from the spec: the external engine's
`runMutation(fetcher, options.onSettled)` — the `onSettled` callback fires
after settlement whether the fetcher resolved or rejected, so the trace is the
fetcher's provider calls followed by the scheduled invalidation, and the
settled result is the fetcher's result. -/
def runMutation (r : MutationRun) (settled : MutEvent) :
    Except MErr (Option Nat) × List MutEvent :=
  (r.1, r.2.map MutEvent.providerCall ++ [settled])

/-- `useCreateDirectListing` mutation function (lines 336-344): asserts the
wallet, the contract, and the truthiness of `contract.direct.createListing`,
then awaits `contract.direct.createListing(data)`. -/
def useCreateDirectListing.mutationFn (walletAddress : Option String)
    (contract : Option Marketplace) (provider : WriteProvider)
    (data : NewDirectListing) : MutationRun :=
  match walletAddress with
  | none => (Except.error (MErr.unauthenticated ("no wallet connected, cannot create listing")), [])
  | some _ =>
    match contract with
    | none => (Except.error (MErr.missingResource ("No Contract instance provided")), [])
    | some c =>
      if c.directCreateListingSupported then
        callProvider provider (ProviderCall.directCreateListing data)
      else
        (Except.error (MErr.unsupportedOperation ("contract does not support direct.createListing")), [])

/-- `useCreateDirectListing` (lines 330-354): the mutation function together
with the `onSettled` invalidation of the contract address and active chain. -/
def useCreateDirectListing.run (walletAddress : Option String)
    (contract : Option Marketplace) (provider : WriteProvider)
    (data : NewDirectListing) (activeChainId : Option Nat) :
    Except MErr (Option Nat) × List MutEvent :=
  runMutation (useCreateDirectListing.mutationFn walletAddress contract provider data)
    (invalidateContractAndBalances (contract.map Marketplace.address) activeChainId)

/-- `useCreateAuctionListing` mutation function (lines 393-400): asserts the
wallet and the contract, then — as written in the source — asserts the
truthiness of `contract.direct.createListing` (line 397, with the message
"contract does not support auction.createListing") and awaits
`contract.auction.createListing(data)` (line 400). -/
def useCreateAuctionListing.mutationFn (walletAddress : Option String)
    (contract : Option Marketplace) (provider : WriteProvider)
    (data : NewAuctionListing) : MutationRun :=
  match walletAddress with
  | none => (Except.error (MErr.unauthenticated ("no wallet connected, cannot create listing")), [])
  | some _ =>
    match contract with
    | none => (Except.error (MErr.missingResource ("No Contract instance provided")), [])
    | some c =>
      if c.directCreateListingSupported then
        callCapability c.auctionCreateListingSupported provider
          (ProviderCall.auctionCreateListing data) ("contract.auction.createListing")
      else
        (Except.error (MErr.unsupportedOperation ("contract does not support auction.createListing")), [])

/-- `useCreateAuctionListing` (lines 387-411): the mutation function together
with the `onSettled` invalidation. -/
def useCreateAuctionListing.run (walletAddress : Option String)
    (contract : Option Marketplace) (provider : WriteProvider)
    (data : NewAuctionListing) (activeChainId : Option Nat) :
    Except MErr (Option Nat) × List MutEvent :=
  runMutation (useCreateAuctionListing.mutationFn walletAddress contract provider data)
    (invalidateContractAndBalances (contract.map Marketplace.address) activeChainId)

/-- `useCancelListing` mutation function (lines 449-455): no wallet check and
no `requiredParamInvariant`; dispatches on `data.type` and awaits
`contract?.auction.cancelListing(data.id)` or
`contract?.direct.cancelListing(data.id)` — with an absent contract the
optional chain short-circuits and the expression resolves to `undefined`.
The `walletAddress` argument models the ambient identity; the source never
reads it (the hook does not call `useAddress`). -/
def useCancelListing.mutationFn (_walletAddress : Option String)
    (contract : Option Marketplace) (provider : WriteProvider)
    (data : CancelListingInput) : MutationRun :=
  match data.type with
  | ListingType.auction =>
    match contract with
    | none => (Except.ok none, [])
    | some _ => callProvider provider (ProviderCall.auctionCancelListing data.id)
  | ListingType.direct =>
    match contract with
    | none => (Except.ok none, [])
    | some _ => callProvider provider (ProviderCall.directCancelListing data.id)

/-- `useCancelListing` (lines 444-465): the mutation function together with the
`onSettled` invalidation. -/
def useCancelListing.run (walletAddress : Option String)
    (contract : Option Marketplace) (provider : WriteProvider)
    (data : CancelListingInput) (activeChainId : Option Nat) :
    Except MErr (Option Nat) × List MutEvent :=
  runMutation (useCancelListing.mutationFn walletAddress contract provider data)
    (invalidateContractAndBalances (contract.map Marketplace.address) activeChainId)

/-- `useMakeBid` mutation function (lines 504-511): asserts the wallet, the
contract, and the truthiness of `contract.auction.makeBid`, then awaits
`contract.auction.makeBid(data.listingId, data.bid)`. -/
def useMakeBid.mutationFn (walletAddress : Option String)
    (contract : Option Marketplace) (provider : WriteProvider)
    (data : MakeBidParams) : MutationRun :=
  match walletAddress with
  | none => (Except.error (MErr.unauthenticated ("no wallet connected, cannot make bid")), [])
  | some _ =>
    match contract with
    | none => (Except.error (MErr.missingResource ("No Contract instance provided")), [])
    | some c =>
      if c.auctionMakeBidSupported then
        callProvider provider (ProviderCall.auctionMakeBid data.listingId data.bid)
      else
        (Except.error (MErr.unsupportedOperation ("contract does not support auction.makeBid")), [])

/-- `useMakeBid` (lines 498-522): the mutation function together with the
`onSettled` invalidation. -/
def useMakeBid.run (walletAddress : Option String)
    (contract : Option Marketplace) (provider : WriteProvider)
    (data : MakeBidParams) (activeChainId : Option Nat) :
    Except MErr (Option Nat) × List MutEvent :=
  runMutation (useMakeBid.mutationFn walletAddress contract provider data)
    (invalidateContractAndBalances (contract.map Marketplace.address) activeChainId)

/-- `useMakeOffer` mutation function (lines 561-568): asserts the wallet and
the contract, then awaits
`contract.makeOffer(data.listingId, data.pricePerToken, data.quantity)`. -/
def useMakeOffer.mutationFn (walletAddress : Option String)
    (contract : Option Marketplace) (provider : WriteProvider)
    (data : MakeOfferParams) : MutationRun :=
  match walletAddress with
  | none => (Except.error (MErr.unauthenticated ("no wallet connected, cannot make bid")), [])
  | some _ =>
    match contract with
    | none => (Except.error (MErr.missingResource ("No Contract instance provided")), [])
    | some _ =>
      callProvider provider (ProviderCall.makeOffer data.listingId data.pricePerToken data.quantity)

/-- `useMakeOffer` (lines 555-579): the mutation function together with the
`onSettled` invalidation. -/
def useMakeOffer.run (walletAddress : Option String)
    (contract : Option Marketplace) (provider : WriteProvider)
    (data : MakeOfferParams) (activeChainId : Option Nat) :
    Except MErr (Option Nat) × List MutEvent :=
  runMutation (useMakeOffer.mutationFn walletAddress contract provider data)
    (invalidateContractAndBalances (contract.map Marketplace.address) activeChainId)

/-- `useAcceptDirectListingOffer` mutation function (lines 620-627): asserts
the wallet and `contract?.direct` (absent when the contract is absent), then
awaits `contract.direct.acceptOffer(data.listingId, data.addressOfOfferor)`. -/
def useAcceptDirectListingOffer.mutationFn (walletAddress : Option String)
    (contract : Option Marketplace) (provider : WriteProvider)
    (data : AcceptDirectOffer) : MutationRun :=
  match walletAddress with
  | none => (Except.error (MErr.unauthenticated ("no wallet connected, cannot make bid")), [])
  | some _ =>
    match contract with
    | none => (Except.error (MErr.missingResource ("No Direct instance provided")), [])
    | some _ =>
      callProvider provider (ProviderCall.directAcceptOffer data.listingId data.addressOfOfferor)

/-- `useAcceptDirectListingOffer` (lines 612-637): the mutation function
together with the `onSettled` invalidation. -/
def useAcceptDirectListingOffer.run (walletAddress : Option String)
    (contract : Option Marketplace) (provider : WriteProvider)
    (data : AcceptDirectOffer) (activeChainId : Option Nat) :
    Except MErr (Option Nat) × List MutEvent :=
  runMutation (useAcceptDirectListingOffer.mutationFn walletAddress contract provider data)
    (invalidateContractAndBalances (contract.map Marketplace.address) activeChainId)

/-- `useExecuteAuctionSale` mutation function (lines 676-682): asserts the
wallet and `contract?.auction`, then awaits
`contract.auction.executeSale(data.listingId)`. -/
def useExecuteAuctionSale.mutationFn (walletAddress : Option String)
    (contract : Option Marketplace) (provider : WriteProvider)
    (data : ExecuteAuctionSale) : MutationRun :=
  match walletAddress with
  | none => (Except.error (MErr.unauthenticated ("no wallet connected, cannot make bid")), [])
  | some _ =>
    match contract with
    | none => (Except.error (MErr.missingResource ("No Auction marketplace instance provided")), [])
    | some _ =>
      callProvider provider (ProviderCall.auctionExecuteSale data.listingId)

/-- `useExecuteAuctionSale` (lines 670-693): the mutation function together
with the `onSettled` invalidation. -/
def useExecuteAuctionSale.run (walletAddress : Option String)
    (contract : Option Marketplace) (provider : WriteProvider)
    (data : ExecuteAuctionSale) (activeChainId : Option Nat) :
    Except MErr (Option Nat) × List MutEvent :=
  runMutation (useExecuteAuctionSale.mutationFn walletAddress contract provider data)
    (invalidateContractAndBalances (contract.map Marketplace.address) activeChainId)

/-- `useBuyNow` mutation function (lines 758-777): asserts the wallet and the
contract; with `data.type === ListingType.Direct` asserts
`contract.direct.buyoutListing` and awaits
`contract.direct.buyoutListing(data.id, data.buyAmount, data.buyForWallet)`,
otherwise asserts `contract.auction.buyoutListing` and awaits
`contract.auction.buyoutListing(data.id)`. -/
def useBuyNow.mutationFn (walletAddress : Option String)
    (contract : Option Marketplace) (provider : WriteProvider)
    (data : BuyNowParams) : MutationRun :=
  match walletAddress with
  | none => (Except.error (MErr.unauthenticated ("no wallet connected, cannot make bid")), [])
  | some _ =>
    match contract with
    | none => (Except.error (MErr.missingResource ("No Contract instance provided")), [])
    | some c =>
      match data with
      | BuyNowParams.direct id buyAmount buyForWallet =>
        if c.directBuyoutListingSupported then
          callProvider provider (ProviderCall.directBuyoutListing id buyAmount buyForWallet)
        else
          (Except.error (MErr.unsupportedOperation ("contract does not support direct.buyoutListing")), [])
      | BuyNowParams.auction id =>
        if c.auctionBuyoutListingSupported then
          callProvider provider (ProviderCall.auctionBuyoutListing id)
        else
          (Except.error (MErr.unsupportedOperation ("contract does not support auction.buyoutListing")), [])

/-- `useBuyNow` (lines 752-788): the mutation function together with the
`onSettled` invalidation. -/
def useBuyNow.run (walletAddress : Option String)
    (contract : Option Marketplace) (provider : WriteProvider)
    (data : BuyNowParams) (activeChainId : Option Nat) :
    Except MErr (Option Nat) × List MutEvent :=
  runMutation (useBuyNow.mutationFn walletAddress contract provider data)
    (invalidateContractAndBalances (contract.map Marketplace.address) activeChainId)

/-- Modelled from the spec: a cache key is an ordered, hierarchical tuple of
(domain, resourceAddress, operationName, serialized parameters)
(cache-keys.ts is not under `src/`). Distinct operation names yield distinct
keys by construction. -/
structure CacheKey where
  domain : String
  resourceAddress : Option String
  operationName : String
  params : List String
deriving DecidableEq, Repr

/-- Modelled from the spec: deterministic serialization of a possibly-absent
big-number parameter. -/
def serializeBigNumberish (x : Option Int) : String :=
  match x with
  | none => "undefined"
  | some i => toString i

/-- Modelled from the spec: the key-derivation entry
`cacheKeys.contract.marketplace.auction.getWinner(contractAddress, listingId)`. -/
def cacheKeys.contract.marketplace.auction.getWinner
    (addr : Option String) (listingId : Option Int) : CacheKey :=
  ⟨"contract", addr, "marketplace.auction.getWinner", [serializeBigNumberish listingId]⟩

/-- Modelled from the spec: the key-derivation entry
`cacheKeys.contract.marketplace.auction.getMinimumNextBid(contractAddress, listingId)`,
the operation-specific key the spec's injectivity invariant assigns to the
minimum-next-bid read. -/
def cacheKeys.contract.marketplace.auction.getMinimumNextBid
    (addr : Option String) (listingId : Option Int) : CacheKey :=
  ⟨"contract", addr, "marketplace.auction.getMinimumNextBid", [serializeBigNumberish listingId]⟩

/-- Query key used by `useAuctionWinner` (lines 211-214):
`cacheKeys.contract.marketplace.auction.getWinner(contractAddress, listingId)`. -/
def useAuctionWinner.queryKey (contract : Option Marketplace) (listingId : Option Int) :
    CacheKey :=
  cacheKeys.contract.marketplace.auction.getWinner (contract.map Marketplace.address) listingId

/-- Query key used by `useMinimumNextBid` (lines 280-283): the source derives
it with `cacheKeys.contract.marketplace.auction.getWinner(contractAddress,
listingId)`. -/
def useMinimumNextBid.queryKey (contract : Option Marketplace) (listingId : Option Int) :
    CacheKey :=
  cacheKeys.contract.marketplace.auction.getWinner (contract.map Marketplace.address) listingId

/-- Payload of a `NewOffer` event (`ev.data`): the embedded big-number listing
id plus the offer fields. -/
structure OfferPayload where
  listingId : Int
  offeror : String
  totalOfferAmount : Int
deriving DecidableEq, Repr

/-- One event of the upstream `NewOffer` stream returned by
`useContractEvents(contract, "NewOffer")`. -/
structure NewOfferEvent where
  data : OfferPayload
deriving DecidableEq, Repr

/-- `BigNumber.eq`: arbitrary-precision numeric equality of listing ids. -/
def bigNumberEq (a b : Int) : Bool :=
  a == b

/-- `useOffers` (lines 708-719): from the upstream `NewOffer` stream result
(possibly still absent), keep the events whose `ev.data.listingId.eq(listingId)`
holds and map each to `ev.data`. -/
def useOffers.data (upstream : Option (List NewOfferEvent)) (listingId : Int) :
    Option (List OfferPayload) :=
  upstream.map fun evs =>
    (evs.filter fun ev => bigNumberEq ev.data.listingId listingId).map NewOfferEvent.data

theorem runMutation_getLast (r : MutationRun) (s : MutEvent) :
    (runMutation r s).2.getLast? = some s := by
  simp [runMutation]

theorem filter_map_eq_filterMap {α β : Type} (p : α → Bool) (f : α → β) (l : List α) :
    (l.filter p).map f = l.filterMap fun a => if p a then some (f a) else none := by
  induction l with
  | nil => rfl
  | cons a l ih =>
    cases h : p a with
    | true => simp [List.filter_cons, List.filterMap_cons, h, ih]
    | false => simp [List.filter_cons, List.filterMap_cons, h, ih]

/-- C6: every read hook invoked with an absent contract handle is disabled
(its enabled flag is false), never issues a provider read call, and its result
is the pending state, for arbitrary parameters and provider behaviours. -/
theorem C6_reads_disabled_without_contract
    (listingId : Option Int) (filter : Option MarketplaceFilter)
    (g1 : String → Int → Except String Nat)
    (g2 : String → Option MarketplaceFilter → Except String Nat)
    (g3 : String → Except String Nat)
    (g4 : String → Option MarketplaceFilter → Except String Nat)
    (g5 : String → Int → Except String Nat)
    (g6 : Int → Except String String)
    (g7 : String → Except String Nat)
    (g8 : String → Int → Except String Nat) :
    useListing.query none listingId g1 = (QueryState.pending, [])
    ∧ useListings.query none filter g2 = (QueryState.pending, [])
    ∧ useListingsCount.query none g3 = (QueryState.pending, [])
    ∧ useActiveListings.query none filter g4 = (QueryState.pending, [])
    ∧ useWinningBid.query none listingId g5 = (QueryState.pending, [])
    ∧ useAuctionWinner.query none listingId g6 = (QueryState.pending, [])
    ∧ useBidBuffer.query none g7 = (QueryState.pending, [])
    ∧ useMinimumNextBid.query none listingId g8 = (QueryState.pending, []) :=
  ⟨rfl, rfl, rfl, rfl, rfl, rfl, rfl, rfl⟩

/-- C10: with a present contract and an absent listing id, useWinningBid,
useAuctionWinner and useMinimumNextBid stay disabled (pending, no provider
call), but useListing is enabled, its fetcher runs and fails with
"No listing id provided", surfacing as the error state. -/
theorem C10_absent_listing_id_inconsistency (c : Marketplace)
    (g1 : String → Int → Except String Nat)
    (g5 : String → Int → Except String Nat)
    (g6 : Int → Except String String)
    (g8 : String → Int → Except String Nat) :
    useListing.query (some c) none g1
      = (QueryState.failure (MErr.missingParameter ("No listing id provided")), [])
    ∧ useListing.enabled (some c) none = true
    ∧ useWinningBid.query (some c) none g5 = (QueryState.pending, [])
    ∧ useAuctionWinner.query (some c) none g6 = (QueryState.pending, [])
    ∧ useMinimumNextBid.query (some c) none g8 = (QueryState.pending, [])
    ∧ useWinningBid.enabled (some c) none = false
    ∧ useAuctionWinner.enabled (some c) none = false
    ∧ useMinimumNextBid.enabled (some c) none = false :=
  ⟨rfl, rfl, rfl, rfl, rfl, rfl, rfl, rfl⟩

/-- C5: when the provider's auction.getWinner rejects, useAuctionWinner
resolves successfully with data undefined exactly when the rejection message
contains "Could not find auction", and re-throws the error (query failure
state) otherwise; a resolved provider call surfaces as its data. -/
theorem C5_auction_winner_tolerates_missing_auction (c : Marketplace) (id : Int) (e : String) :
    useAuctionWinner.query (some c) (some id) (fun _ => Except.error e)
      = (if jsIncludes e ("Could not find auction") then
          (QueryState.success none, [ReadCall.auctionGetWinner c.address id])
        else
          (QueryState.failure (MErr.providerError e), [ReadCall.auctionGetWinner c.address id]))
    ∧ ∀ w : String, useAuctionWinner.query (some c) (some id) (fun _ => Except.ok w)
        = (QueryState.success (some w), [ReadCall.auctionGetWinner c.address id]) := by
  constructor
  · cases h : jsIncludes e ("Could not find auction") with
    | true => simp [useAuctionWinner.query, useAuctionWinner.enabled, runQueryT, h]
    | false => simp [useAuctionWinner.query, useAuctionWinner.enabled, runQueryT, h]
  · intro w
    rfl

/-- C4: every write hook's mutation run ends with the scheduled onSettled
invalidation of the contract address and active chain context, for arbitrary
inputs and provider behaviour — in particular also when the provider call (or
any precondition) fails. -/
theorem C4_settlement_always_schedules_invalidation
    (walletAddress : Option String) (contract : Option Marketplace)
    (provider : WriteProvider) (activeChainId : Option Nat)
    (d1 : NewDirectListing) (d2 : NewAuctionListing) (d3 : CancelListingInput)
    (d4 : MakeBidParams) (d5 : MakeOfferParams) (d6 : AcceptDirectOffer)
    (d7 : ExecuteAuctionSale) (d8 : BuyNowParams) :
    (useCreateDirectListing.run walletAddress contract provider d1 activeChainId).2.getLast?
      = some (MutEvent.invalidate (contract.map Marketplace.address) activeChainId)
    ∧ (useCreateAuctionListing.run walletAddress contract provider d2 activeChainId).2.getLast?
      = some (MutEvent.invalidate (contract.map Marketplace.address) activeChainId)
    ∧ (useCancelListing.run walletAddress contract provider d3 activeChainId).2.getLast?
      = some (MutEvent.invalidate (contract.map Marketplace.address) activeChainId)
    ∧ (useMakeBid.run walletAddress contract provider d4 activeChainId).2.getLast?
      = some (MutEvent.invalidate (contract.map Marketplace.address) activeChainId)
    ∧ (useMakeOffer.run walletAddress contract provider d5 activeChainId).2.getLast?
      = some (MutEvent.invalidate (contract.map Marketplace.address) activeChainId)
    ∧ (useAcceptDirectListingOffer.run walletAddress contract provider d6 activeChainId).2.getLast?
      = some (MutEvent.invalidate (contract.map Marketplace.address) activeChainId)
    ∧ (useExecuteAuctionSale.run walletAddress contract provider d7 activeChainId).2.getLast?
      = some (MutEvent.invalidate (contract.map Marketplace.address) activeChainId)
    ∧ (useBuyNow.run walletAddress contract provider d8 activeChainId).2.getLast?
      = some (MutEvent.invalidate (contract.map Marketplace.address) activeChainId) := by
  refine ⟨?_, ?_, ?_, ?_, ?_, ?_, ?_, ?_⟩ <;> exact runMutation_getLast _ _

/-- C2 (amended): every write hook except useCancelListing, invoked with no
active wallet address, fails immediately with the unauthenticated error and
issues no provider call, for arbitrary contract, provider and input. -/
theorem C2_writes_without_wallet_fail_unauthenticated
    (contract : Option Marketplace) (provider : WriteProvider) (activeChainId : Option Nat)
    (d1 : NewDirectListing) (d2 : NewAuctionListing)
    (d4 : MakeBidParams) (d5 : MakeOfferParams) (d6 : AcceptDirectOffer)
    (d7 : ExecuteAuctionSale) (d8 : BuyNowParams) :
    ((useCreateDirectListing.run none contract provider d1 activeChainId).1
        = Except.error (MErr.unauthenticated ("no wallet connected, cannot create listing"))
      ∧ providerCalls (useCreateDirectListing.run none contract provider d1 activeChainId).2 = [])
    ∧ ((useCreateAuctionListing.run none contract provider d2 activeChainId).1
        = Except.error (MErr.unauthenticated ("no wallet connected, cannot create listing"))
      ∧ providerCalls (useCreateAuctionListing.run none contract provider d2 activeChainId).2 = [])
    ∧ ((useMakeBid.run none contract provider d4 activeChainId).1
        = Except.error (MErr.unauthenticated ("no wallet connected, cannot make bid"))
      ∧ providerCalls (useMakeBid.run none contract provider d4 activeChainId).2 = [])
    ∧ ((useMakeOffer.run none contract provider d5 activeChainId).1
        = Except.error (MErr.unauthenticated ("no wallet connected, cannot make bid"))
      ∧ providerCalls (useMakeOffer.run none contract provider d5 activeChainId).2 = [])
    ∧ ((useAcceptDirectListingOffer.run none contract provider d6 activeChainId).1
        = Except.error (MErr.unauthenticated ("no wallet connected, cannot make bid"))
      ∧ providerCalls (useAcceptDirectListingOffer.run none contract provider d6 activeChainId).2 = [])
    ∧ ((useExecuteAuctionSale.run none contract provider d7 activeChainId).1
        = Except.error (MErr.unauthenticated ("no wallet connected, cannot make bid"))
      ∧ providerCalls (useExecuteAuctionSale.run none contract provider d7 activeChainId).2 = [])
    ∧ ((useBuyNow.run none contract provider d8 activeChainId).1
        = Except.error (MErr.unauthenticated ("no wallet connected, cannot make bid"))
      ∧ providerCalls (useBuyNow.run none contract provider d8 activeChainId).2 = []) :=
  ⟨⟨rfl, rfl⟩, ⟨rfl, rfl⟩, ⟨rfl, rfl⟩, ⟨rfl, rfl⟩, ⟨rfl, rfl⟩, ⟨rfl, rfl⟩, ⟨rfl, rfl⟩⟩

/-- C2 counterexample: useCancelListing invoked with no active wallet address
(and a present contract) calls the provider and resolves successfully — it
neither fails with an unauthenticated error nor leaves the provider uncalled,
refuting the claim for the cancel-listing write. -/
theorem C2_cancel_listing_skips_wallet_check :
    (useCancelListing.run none (some (mkMarketplace ("0x1"))) (fun _ => Except.ok 1)
        ⟨ListingType.auction, 7⟩ (some 1)).1 = Except.ok (some 1)
    ∧ providerCalls (useCancelListing.run none (some (mkMarketplace ("0x1")))
        (fun _ => Except.ok 1) ⟨ListingType.auction, 7⟩ (some 1)).2
      = [ProviderCall.auctionCancelListing 7]
    ∧ providerCalls (useCancelListing.run none (some (mkMarketplace ("0x1")))
        (fun _ => Except.ok 1) ⟨ListingType.auction, 7⟩ (some 1)).2 ≠ [] := by
  refine ⟨rfl, rfl, by decide⟩

/-- C8 (amended): every write hook except useCancelListing, invoked with an
absent contract handle (and a present wallet), fails with the missing-resource
error of its requiredParamInvariant and issues no provider call. -/
theorem C8_writes_without_contract_fail_missing_resource
    (w : String) (provider : WriteProvider) (activeChainId : Option Nat)
    (d1 : NewDirectListing) (d2 : NewAuctionListing)
    (d4 : MakeBidParams) (d5 : MakeOfferParams) (d6 : AcceptDirectOffer)
    (d7 : ExecuteAuctionSale) (d8 : BuyNowParams) :
    ((useCreateDirectListing.run (some w) none provider d1 activeChainId).1
        = Except.error (MErr.missingResource ("No Contract instance provided"))
      ∧ providerCalls (useCreateDirectListing.run (some w) none provider d1 activeChainId).2 = [])
    ∧ ((useCreateAuctionListing.run (some w) none provider d2 activeChainId).1
        = Except.error (MErr.missingResource ("No Contract instance provided"))
      ∧ providerCalls (useCreateAuctionListing.run (some w) none provider d2 activeChainId).2 = [])
    ∧ ((useMakeBid.run (some w) none provider d4 activeChainId).1
        = Except.error (MErr.missingResource ("No Contract instance provided"))
      ∧ providerCalls (useMakeBid.run (some w) none provider d4 activeChainId).2 = [])
    ∧ ((useMakeOffer.run (some w) none provider d5 activeChainId).1
        = Except.error (MErr.missingResource ("No Contract instance provided"))
      ∧ providerCalls (useMakeOffer.run (some w) none provider d5 activeChainId).2 = [])
    ∧ ((useAcceptDirectListingOffer.run (some w) none provider d6 activeChainId).1
        = Except.error (MErr.missingResource ("No Direct instance provided"))
      ∧ providerCalls (useAcceptDirectListingOffer.run (some w) none provider d6 activeChainId).2 = [])
    ∧ ((useExecuteAuctionSale.run (some w) none provider d7 activeChainId).1
        = Except.error (MErr.missingResource ("No Auction marketplace instance provided"))
      ∧ providerCalls (useExecuteAuctionSale.run (some w) none provider d7 activeChainId).2 = [])
    ∧ ((useBuyNow.run (some w) none provider d8 activeChainId).1
        = Except.error (MErr.missingResource ("No Contract instance provided"))
      ∧ providerCalls (useBuyNow.run (some w) none provider d8 activeChainId).2 = []) :=
  ⟨⟨rfl, rfl⟩, ⟨rfl, rfl⟩, ⟨rfl, rfl⟩, ⟨rfl, rfl⟩, ⟨rfl, rfl⟩, ⟨rfl, rfl⟩, ⟨rfl, rfl⟩⟩

/-- C8 counterexample: useCancelListing invoked with an absent contract handle
does not fail with a missing-resource error — the optional chain
short-circuits, no provider call is made, and the mutation resolves
successfully with undefined. -/
theorem C8_cancel_listing_absent_contract_resolves :
    (useCancelListing.run (some ("0xw")) none (fun _ => Except.ok 1)
        ⟨ListingType.auction, 7⟩ (some 1)).1 = Except.ok none
    ∧ providerCalls (useCancelListing.run (some ("0xw")) none (fun _ => Except.ok 1)
        ⟨ListingType.auction, 7⟩ (some 1)).2 = []
    ∧ (useCancelListing.run (some ("0xw")) none (fun _ => Except.ok 1)
        ⟨ListingType.auction, 7⟩ (some 1)).1
      ≠ Except.error (MErr.missingResource ("No Contract instance provided")) := by
  refine ⟨rfl, rfl, ?_⟩
  intro h
  exact Except.noConfusion h

/-- C7: useCancelListing and useBuyNow dispatch on the listing-type tag —
the auction-cancel input leads to exactly the auction.cancelListing provider
call, the direct-cancel input to exactly direct.cancelListing, the direct
buy-now input to exactly direct.buyoutListing(id, buyAmount, buyForWallet),
and the auction buy-now input to exactly auction.buyoutListing(id); in each
run the list of provider calls is that singleton, so the other sub-path is
never invoked. -/
theorem C7_cancel_and_buy_now_dispatch (w addr : String) (provider : WriteProvider)
    (id amt : Int) (buyFor : Option String) (chain : Option Nat) :
    providerCalls (useCancelListing.run (some w) (some (mkMarketplace addr)) provider
        ⟨ListingType.auction, id⟩ chain).2 = [ProviderCall.auctionCancelListing id]
    ∧ providerCalls (useCancelListing.run (some w) (some (mkMarketplace addr)) provider
        ⟨ListingType.direct, id⟩ chain).2 = [ProviderCall.directCancelListing id]
    ∧ providerCalls (useBuyNow.run (some w) (some (mkMarketplace addr)) provider
        (BuyNowParams.direct id amt buyFor) chain).2
      = [ProviderCall.directBuyoutListing id amt buyFor]
    ∧ providerCalls (useBuyNow.run (some w) (some (mkMarketplace addr)) provider
        (BuyNowParams.auction id) chain).2 = [ProviderCall.auctionBuyoutListing id] :=
  ⟨rfl, rfl, rfl, rfl⟩

/-- C1: at the concrete input (contract address "0x1", listingId 1) the cache
key derived by useMinimumNextBid is identical to the key derived by
useAuctionWinner — the source derives both with
cacheKeys.contract.marketplace.auction.getWinner — even though the
operation-specific getMinimumNextBid derivation would produce a distinct key;
the two meaningfully-distinct reads therefore collide, contradicting the
claimed injectivity. -/
theorem C1_minimum_next_bid_key_collision :
    useMinimumNextBid.queryKey (some (mkMarketplace ("0x1"))) (some 1)
      = useAuctionWinner.queryKey (some (mkMarketplace ("0x1"))) (some 1)
    ∧ cacheKeys.contract.marketplace.auction.getMinimumNextBid (some ("0x1")) (some 1)
      ≠ cacheKeys.contract.marketplace.auction.getWinner (some ("0x1")) (some 1) := by
  refine ⟨rfl, by decide⟩

/-- C3: useCreateAuctionListing checks the wrong sub-capability. With a handle
whose direct.createListing is present but whose auction.createListing is
absent, the capability check passes and the run crashes with a TypeError on
the absent auction capability (no provider call, no unsupported-operation
error); with the dual handle — auction.createListing present,
direct.createListing absent — it fails with the unsupported-operation error
although the capability it would invoke exists. useCreateDirectListing checks
the capability it actually calls. -/
theorem C3_create_auction_listing_checks_wrong_capability :
    (useCreateAuctionListing.run (some ("0xw")) (some ⟨"0x1", true, false, true, true, true⟩)
        (fun _ => Except.ok 1) 0 (some 1)).1
      = Except.error (MErr.typeError ("contract.auction.createListing is not a function"))
    ∧ providerCalls (useCreateAuctionListing.run (some ("0xw"))
        (some ⟨"0x1", true, false, true, true, true⟩) (fun _ => Except.ok 1) 0 (some 1)).2 = []
    ∧ (useCreateAuctionListing.run (some ("0xw")) (some ⟨"0x1", false, true, true, true, true⟩)
        (fun _ => Except.ok 1) 0 (some 1)).1
      = Except.error (MErr.unsupportedOperation ("contract does not support auction.createListing"))
    ∧ (useCreateDirectListing.run (some ("0xw")) (some ⟨"0x1", false, true, true, true, true⟩)
        (fun _ => Except.ok 1) 0 (some 1)).1
      = Except.error (MErr.unsupportedOperation ("contract does not support direct.createListing")) := by
  refine ⟨rfl, rfl, rfl, rfl⟩

/-- C9: useOffers returns exactly the payloads of the upstream NewOffer events
whose embedded big-number listing id equals the target — characterized as a
filterMap under exact integer equality — every returned payload carries the
target id, and ids beyond the 2^53 double-precision range are still
distinguished (9007199254740992 vs 9007199254740993). -/
theorem C9_use_offers_filters_by_bignum_equality (evs : List NewOfferEvent) (target : Int) :
    useOffers.data (some evs) target
      = some (evs.filterMap fun ev =>
          if ev.data.listingId = target then some ev.data else none)
    ∧ ((useOffers.data (some evs) target).getD []).all
        (fun p => p.listingId == target) = true
    ∧ useOffers.data
        (some [⟨⟨9007199254740992, "a", 1⟩⟩, ⟨⟨9007199254740993, "b", 2⟩⟩]) 9007199254740992
      = some [⟨9007199254740992, "a", 1⟩] := by
  refine ⟨?_, ?_, by decide⟩
  · simp only [useOffers.data, Option.map_some', Option.some_inj]
    rw [filter_map_eq_filterMap]
    congr 1
    funext ev
    simp [bigNumberEq]
  · simp only [useOffers.data, Option.map, Option.getD, List.all_eq_true]
    intro p hp
    obtain ⟨ev, hev, rfl⟩ := List.mem_map.mp hp
    have hfil := List.of_mem_filter hev
    simpa [bigNumberEq] using hfil
